import Mathlib

/-!
Verification of the master-side worker supervision protocol
(`artiq/master/worker.py`): the `Worker.run` request/reply state machine,
the `_send` / `_recv` framed-channel primitives and `end_process`.

The Python coroutines are embedded shallowly: each I/O interaction consumes
one event from an environment script (`SendEvent` for outcomes of
`_send`, `RecvEvent` for outcomes of `_recv`), and `Worker.run` returns
its final outcome together with the ordered trace of completed sends and
receives.
-/

/-- Structured (PYON-decodable) values exchanged with the worker:
strings, numbers, string-keyed mappings and the `None` marker. -/
inductive Value where
  | str : String → Value
  | num : Int → Value
  | dict : List (String × Value) → Value
  | pynone : Value

/-- Python dict lookup on the association-list representation. -/
def dlookup : List (String × Value) → String → Option Value
  | [], _ => none
  | (k, v) :: rest, key => if k = key then some v else dlookup rest key

/-- `del obj[key]` on the association-list representation. -/
def delKey (l : List (String × Value)) (key : String) : List (String × Value) :=
  l.filter (fun p => p.1 != key)

/-- Exceptions that can escape `Worker.run` / `Worker._send`. -/
inductive PyError where
  /-- `WorkerFailed(msg)`: protocol-layer failure. -/
  | workerFailed : String → PyError
  /-- `RunFailed(payload)`: the job reported failure; payload is `obj["message"]`. -/
  | runFailed : Value → PyError
  /-- An uncaught Python `KeyError(key)` from a dict subscript. -/
  | keyError : String → PyError
  /-- An uncaught Python `TypeError` from subscripting a non-mapping. -/
  | typeError : PyError
  /-- An uncaught I/O exception (e.g. `BrokenPipeError`) from `stdin.write`. -/
  | ioFault : PyError

/-- Python subscript `v[key]` with a string key: a mapping yields the entry
or raises `KeyError`; any non-mapping raises `TypeError`. -/
def Value.getItem : Value → String → Except PyError Value
  | .dict l, k =>
      match dlookup l k with
      | some v => Except.ok v
      | none => Except.error (PyError.keyError k)
  | .str _, _ => Except.error PyError.typeError
  | .num _, _ => Except.error PyError.typeError
  | .pynone, _ => Except.error PyError.typeError

/-- Python `v == s` for a string literal `s`. -/
def Value.isStr : Value → String → Bool
  | .str t, s => t = s
  | _, _ => false

/-- Environment outcome of one call to `Worker._send`.  In the source the
two `stdin.write` calls happen before the `try` block; only the `drain`
future is awaited inside `try`/`except`. -/
inductive SendEvent where
  /-- write and drain both succeed. -/
  | ok : SendEvent
  /-- an I/O exception is raised by `stdin.write` itself (outside the `try`). -/
  | writeFault : SendEvent
  /-- `asyncio.wait_for(drain, timeout)` times out. -/
  | drainTimeout : SendEvent
  /-- `drain` fails with any other exception. -/
  | drainFault : SendEvent

/-- `Worker._send`: the write faults propagate raw; a drain timeout raises
`WorkerFailed("Timeout sending data from worker")`; any other drain failure
raises `WorkerFailed("Failed to send data to worker")`. -/
def Worker.sendStep : SendEvent → Except PyError Unit
  | .ok => Except.ok ()
  | .writeFault => Except.error PyError.ioFault
  | .drainTimeout => Except.error (PyError.workerFailed "Timeout sending data from worker")
  | .drainFault => Except.error (PyError.workerFailed "Failed to send data to worker")

/-- Environment outcome of one call to `Worker._recv`. -/
inductive RecvEvent where
  /-- `asyncio.wait_for(readline, timeout)` times out. -/
  | timeout : RecvEvent
  /-- `readline` returns an empty line (stream closed / EOF). -/
  | eof : RecvEvent
  /-- a line arrives but `pyon.decode` fails. -/
  | invalid : RecvEvent
  /-- a line arrives and decodes to the given value. -/
  | msg : Value → RecvEvent

/-- `Worker._recv`: timeout, EOF and undecodable data each raise
`WorkerFailed` with the corresponding message; otherwise the decoded
value is returned. -/
def Worker.recvStep : RecvEvent → Except PyError Value
  | .timeout => Except.error (PyError.workerFailed "Timeout receiving data from worker")
  | .eof => Except.error (PyError.workerFailed "Worker ended unexpectedly while trying to receive data")
  | .invalid => Except.error (PyError.workerFailed "Worker sent invalid PYON data")
  | .msg v => Except.ok v

/-- A completed I/O operation of `Worker.run`, in program order. -/
inductive TraceEv where
  /-- a `_send` whose write and drain completed, carrying the sent value. -/
  | sent : Value → TraceEv
  /-- a `_recv` that returned the given decoded value. -/
  | received : Value → TraceEv

/-- Final outcome of `Worker.run`. -/
inductive Outcome where
  /-- the coroutine returned normally. -/
  | ok : Outcome
  /-- the coroutine raised the given exception. -/
  | error : PyError → Outcome
  /-- the environment script supplies no event for a pending operation
  (models an unbounded wait; never reached on an adequate script, since
  every `_send`/`_recv` in the source ends in one of the event outcomes). -/
  | stuck : Outcome

/-- The handler table: `self.handlers` is a caller-supplied dict, indexed
in `run` by the (arbitrary) `action` value.  `none` on lookup models a key
absent from the dict (Python `KeyError`); a handler returning `none`
models the handler call raising. -/
def Handlers : Type := Value → Option (List (String × Value) → Option Value)

/-- Modelled from the spec: the diagnostic text produced by
`traceback.format_exc()` (Python standard library, outside this
repository) when a handler dispatch fails — "a diagnostic message (full
local error description/trace)".  Modelled as a fixed non-empty trace
template. -/
def formatExc : String := "Traceback (most recent call last):\n  ...\n"

/-- The `try`/`except` handler dispatch of `Worker.run`: look up
`handlers[action]` and call it on the remaining fields; any failure
(missing key or handler exception) is caught and turned into a failed
reply, a returned value `data` into `{"status": "ok", "data": data}`. -/
def Worker.dispatch (handlers : Handlers) (action : Value)
    (fields : List (String × Value)) : Value :=
  match handlers action with
  | some h =>
      match h fields with
      | some data => Value.dict [("status", .str "ok"), ("data", data)]
      | none => Value.dict [("status", .str "failed"), ("message", .str formatExc)]
  | none => Value.dict [("status", .str "failed"), ("message", .str formatExc)]

/-- The `while True` action-exchange loop of `Worker.run`: receive a
message; on `action == "report_completed"` finish according to `status`
(raising `RunFailed(obj["message"])` unless it is `"ok"`); otherwise
delete the action tag, dispatch to the handler table and send the reply
back.  Consumes one `RecvEvent` per iteration and one `SendEvent` per
action reply. -/
def Worker.exchange (handlers : Handlers) :
    List RecvEvent → List SendEvent → Outcome × List TraceEv
  | [], _ => (Outcome.stuck, [])
  | re :: rs, sends =>
    match Worker.recvStep re with
    | Except.error e => (Outcome.error e, [])
    | Except.ok obj =>
      match obj.getItem "action" with
      | Except.error e => (Outcome.error e, [TraceEv.received obj])
      | Except.ok action =>
        if action.isStr "report_completed" then
          match obj.getItem "status" with
          | Except.error e => (Outcome.error e, [TraceEv.received obj])
          | Except.ok st =>
            if st.isStr "ok" then
              (Outcome.ok, [TraceEv.received obj])
            else
              match obj.getItem "message" with
              | Except.error e => (Outcome.error e, [TraceEv.received obj])
              | Except.ok m => (Outcome.error (PyError.runFailed m), [TraceEv.received obj])
        else
          let fields :=
            match obj with
            | Value.dict l => delKey l "action"
            | _ => []
          let reply := Worker.dispatch handlers action fields
          match sends with
          | [] => (Outcome.stuck, [TraceEv.received obj])
          | se :: ss =>
            match Worker.sendStep se with
            | Except.error e => (Outcome.error e, [TraceEv.received obj])
            | Except.ok _ =>
              let rest := Worker.exchange handlers rs ss
              (rest.1, TraceEv.received obj :: TraceEv.sent reply :: rest.2)

/-- `Worker.run`: send the run request, receive and check the `"ack"`
literal, then enter the action-exchange loop. -/
def Worker.run (handlers : Handlers) (runParams : Value)
    (sends : List SendEvent) (recvs : List RecvEvent) : Outcome × List TraceEv :=
  match sends with
  | [] => (Outcome.stuck, [])
  | se :: ss =>
    match Worker.sendStep se with
    | Except.error e => (Outcome.error e, [])
    | Except.ok _ =>
      match recvs with
      | [] => (Outcome.stuck, [TraceEv.sent runParams])
      | re :: rs =>
        match Worker.recvStep re with
        | Except.error e => (Outcome.error e, [TraceEv.sent runParams])
        | Except.ok obj =>
          if obj.isStr "ack" then
            let rest := Worker.exchange handlers rs ss
            (rest.1, TraceEv.sent runParams :: TraceEv.received obj :: rest.2)
          else
            (Outcome.error (PyError.workerFailed "Incorrect acknowledgement"),
             [TraceEv.sent runParams, TraceEv.received obj])

/-- Signals `end_process` can issue. -/
inductive Sig where
  | sigterm : Sig
  | sigkill : Sig
deriving DecidableEq

/-- Liveness of the worker process as `end_process` observes it. -/
inductive ProcState where
  /-- `process.returncode is not None`: the process already exited. -/
  | exited : ProcState
  /-- the process is live and exits within `term_timeout` of SIGTERM. -/
  | termResponsive : ProcState
  /-- the process is live and does not exit within `term_timeout` of SIGTERM. -/
  | termIgnoring : ProcState

/-- Observable behaviour of one `end_process` call. -/
structure EndResult where
  /-- signals issued, in order. -/
  signals : List Sig
  /-- whether any wait was performed after the last signal issued. -/
  waitedAfterLastSignal : Bool
  /-- whether an exception propagated to the caller. -/
  raised : Bool
deriving DecidableEq

/-- `Worker.end_process`: return at once if the process already exited;
otherwise send SIGTERM and wait up to `term_timeout`; if the wait times
out, send SIGKILL and return without waiting further.  The
`TimeoutError` is caught, so nothing propagates. -/
def Worker.end_process : ProcState → EndResult
  | ProcState.exited => ⟨[], false, false⟩
  | ProcState.termResponsive => ⟨[Sig.sigterm], true, false⟩
  | ProcState.termIgnoring => ⟨[Sig.sigterm, Sig.sigkill], false, false⟩

/-- Whether a `PyError` is a `WorkerFailed` (protocol-layer) failure. -/
def PyError.isWorkerFailed : PyError → Bool
  | PyError.workerFailed _ => true
  | _ => false

/-- Whether a `PyError` is a `RunFailed` (job-layer) failure. -/
def PyError.isRunFailed : PyError → Bool
  | PyError.runFailed _ => true
  | _ => false

/-- Whether an `Outcome` is a raised `WorkerFailed`. -/
def Outcome.isWorkerFailed : Outcome → Bool
  | Outcome.error e => e.isWorkerFailed
  | _ => false

/-- Whether an `Outcome` is a raised `RunFailed`. -/
def Outcome.isRunFailed : Outcome → Bool
  | Outcome.error e => e.isRunFailed
  | _ => false

/-- The dispatch of an action fails locally: its name is absent from the
handler table, or the handler call raises. -/
def Worker.dispatchFails (handlers : Handlers) (action : Value)
    (fields : List (String × Value)) : Prop :=
  handlers action = none ∨ ∃ h, handlers action = some h ∧ h fields = none

/-- Strict request/reply alternation for the action-exchange part of a
trace: every received message is followed by at most one sent reply
before the next receive, and a receive with no following send can only
be the final event. -/
def replyAlternation : List TraceEv → Bool
  | [] => true
  | [TraceEv.received _] => true
  | TraceEv.received _ :: TraceEv.sent _ :: t => replyAlternation t
  | _ => false

/-- Shape of a complete `Worker.run` trace: the run-request send, then
the ack receive, then an alternation of action receives and reply
sends. -/
def runTraceShape : List TraceEv → Bool
  | [] => true
  | [TraceEv.sent _] => true
  | TraceEv.sent _ :: TraceEv.received _ :: t => replyAlternation t
  | _ => false

/-- C1: for every run request, if the worker's first received message is
the acknowledgement literal `"ack"` and the next received message is a
completion report with `action = "report_completed"` and
`status = "ok"`, then `Worker.run` returns normally with no exception
raised. -/
theorem run_ack_then_success_completes
    (handlers : Handlers) (runParams : Value)
    (ss : List SendEvent) (rs : List RecvEvent) (l : List (String × Value))
    (hA : dlookup l "action" = some (Value.str "report_completed"))
    (hS : dlookup l "status" = some (Value.str "ok")) :
    (Worker.run handlers runParams (SendEvent.ok :: ss)
      (RecvEvent.msg (Value.str "ack") :: RecvEvent.msg (Value.dict l) :: rs)).1
      = Outcome.ok := by
  simp [Worker.run, Worker.exchange, Worker.recvStep, Worker.sendStep,
        Value.getItem, Value.isStr, hA, hS]

/-- Witness for C1 at a concrete run. -/
theorem run_ack_then_success_completes_witness :
    (Worker.run (fun _ => none) Value.pynone [SendEvent.ok]
      [RecvEvent.msg (Value.str "ack"),
       RecvEvent.msg (Value.dict
         [("action", Value.str "report_completed"), ("status", Value.str "ok")])]).1
      = Outcome.ok :=
  run_ack_then_success_completes (fun _ => none) Value.pynone [] [] _ rfl rfl

/-- Evaluation of `Value.isStr` on a string value. -/
theorem Value.isStr_str (t s : String) : Value.isStr (Value.str t) s = decide (t = s) := rfl

/-- C4: for every completion report (message whose `action` is the
completion sentinel `"report_completed"`) whose `status` is not `"ok"`
and which carries a `message` field `m`, `Worker.run` raises
`RunFailed` with payload exactly `m`, and `RunFailed` is distinct from
`WorkerFailed`. -/
theorem run_failed_completion_raises_runFailed
    (handlers : Handlers) (runParams : Value)
    (ss : List SendEvent) (rs : List RecvEvent) (l : List (String × Value))
    (s m : Value)
    (hA : dlookup l "action" = some (Value.str "report_completed"))
    (hS : dlookup l "status" = some s)
    (hNotOk : s.isStr "ok" = false)
    (hM : dlookup l "message" = some m) :
    (Worker.run handlers runParams (SendEvent.ok :: ss)
      (RecvEvent.msg (Value.str "ack") :: RecvEvent.msg (Value.dict l) :: rs)).1
      = Outcome.error (PyError.runFailed m)
    ∧ Outcome.isWorkerFailed (Outcome.error (PyError.runFailed m)) = false := by
  refine ⟨?_, rfl⟩
  simp [Worker.run, Worker.exchange, Worker.recvStep, Worker.sendStep,
        Value.getItem, Value.isStr_str, hA, hS, hNotOk, hM]

/-- Witness for C4: status `"error"`, message `"boom"`. -/
theorem run_failed_completion_raises_runFailed_witness :
    (Worker.run (fun _ => none) Value.pynone [SendEvent.ok]
      [RecvEvent.msg (Value.str "ack"),
       RecvEvent.msg (Value.dict
         [("action", Value.str "report_completed"), ("status", Value.str "error"),
          ("message", Value.str "boom")])]).1
      = Outcome.error (PyError.runFailed (Value.str "boom"))
    ∧ Outcome.isWorkerFailed (Outcome.error (PyError.runFailed (Value.str "boom"))) = false :=
  run_failed_completion_raises_runFailed (fun _ => none) Value.pynone [] [] _
    (Value.str "error") (Value.str "boom") rfl rfl rfl rfl

/-- C10 (implicit): a completion report with a non-`"ok"` status but no
`"message"` key makes `Worker.run` terminate with an uncaught `KeyError`
from the `obj["message"]` subscript — neither `RunFailed` nor
`WorkerFailed`. -/
theorem run_failed_completion_missing_message_keyError
    (handlers : Handlers) (runParams : Value)
    (ss : List SendEvent) (rs : List RecvEvent) (l : List (String × Value))
    (s : Value)
    (hA : dlookup l "action" = some (Value.str "report_completed"))
    (hS : dlookup l "status" = some s)
    (hNotOk : s.isStr "ok" = false)
    (hM : dlookup l "message" = none) :
    (Worker.run handlers runParams (SendEvent.ok :: ss)
      (RecvEvent.msg (Value.str "ack") :: RecvEvent.msg (Value.dict l) :: rs)).1
      = Outcome.error (PyError.keyError "message")
    ∧ Outcome.isWorkerFailed (Outcome.error (PyError.keyError "message")) = false
    ∧ Outcome.isRunFailed (Outcome.error (PyError.keyError "message")) = false := by
  refine ⟨?_, rfl, rfl⟩
  simp [Worker.run, Worker.exchange, Worker.recvStep, Worker.sendStep,
        Value.getItem, Value.isStr_str, hA, hS, hNotOk, hM]

/-- Witness for C10: completion report `{action, status}` with no message. -/
theorem run_failed_completion_missing_message_keyError_witness :
    (Worker.run (fun _ => none) Value.pynone [SendEvent.ok]
      [RecvEvent.msg (Value.str "ack"),
       RecvEvent.msg (Value.dict
         [("action", Value.str "report_completed"), ("status", Value.str "error")])]).1
      = Outcome.error (PyError.keyError "message")
    ∧ Outcome.isWorkerFailed (Outcome.error (PyError.keyError "message")) = false
    ∧ Outcome.isRunFailed (Outcome.error (PyError.keyError "message")) = false :=
  run_failed_completion_missing_message_keyError (fun _ => none) Value.pynone [] [] _
    (Value.str "error") rfl rfl rfl rfl

/-- C2: for every Action Message whose action name is a key of the
handler table and whose handler invocation returns `v`, the
action-exchange loop of `Worker.run` sends back exactly one Action
Reply for that message — `{"status": "ok", "data": v}` — and then
continues with the remaining exchange. -/
theorem exchange_known_action_ok_reply
    (handlers : Handlers) (rs : List RecvEvent) (ss : List SendEvent)
    (l : List (String × Value)) (a : Value)
    (h : List (String × Value) → Option Value) (v : Value)
    (hA : dlookup l "action" = some a)
    (hNC : a.isStr "report_completed" = false)
    (hH : handlers a = some h)
    (hV : h (delKey l "action") = some v) :
    Worker.exchange handlers (RecvEvent.msg (Value.dict l) :: rs) (SendEvent.ok :: ss)
      = ((Worker.exchange handlers rs ss).1,
         TraceEv.received (Value.dict l)
           :: TraceEv.sent (Value.dict [("status", Value.str "ok"), ("data", v)])
           :: (Worker.exchange handlers rs ss).2) := by
  simp [Worker.exchange, Worker.recvStep, Worker.sendStep, Worker.dispatch,
        Value.getItem, hA, hNC, hH, hV]

/-- Witness for C2: handler `"log"` returning `None`. -/
theorem exchange_known_action_ok_reply_witness :
    Worker.exchange
      (fun a => if a.isStr "log" then some (fun _ => some Value.pynone) else none)
      [RecvEvent.msg (Value.dict [("action", Value.str "log"), ("text", Value.str "hi")])]
      [SendEvent.ok]
      = ((Worker.exchange
            (fun a => if a.isStr "log" then some (fun _ => some Value.pynone) else none)
            [] []).1,
         TraceEv.received (Value.dict [("action", Value.str "log"), ("text", Value.str "hi")])
           :: TraceEv.sent (Value.dict [("status", Value.str "ok"), ("data", Value.pynone)])
           :: (Worker.exchange
                 (fun a => if a.isStr "log" then some (fun _ => some Value.pynone) else none)
                 [] []).2) :=
  exchange_known_action_ok_reply
    (fun a => if a.isStr "log" then some (fun _ => some Value.pynone) else none)
    [] [] [("action", Value.str "log"), ("text", Value.str "hi")]
    (Value.str "log") (fun _ => some Value.pynone) Value.pynone rfl rfl rfl rfl

/-- C3: for every Action Message whose dispatch fails locally (action
name absent from the handler table, or handler raising), the
action-exchange loop sends back an Action Reply with status `"failed"`
and a non-empty diagnostic message, does not terminate on it, and
continues with the remaining exchange — in particular a following
well-formed success completion report still ends the run successfully. -/
theorem exchange_failed_dispatch_failed_reply
    (handlers : Handlers) (rs : List RecvEvent) (ss : List SendEvent)
    (l : List (String × Value)) (a : Value)
    (hA : dlookup l "action" = some a)
    (hNC : a.isStr "report_completed" = false)
    (hFail : Worker.dispatchFails handlers a (delKey l "action")) :
    Worker.exchange handlers (RecvEvent.msg (Value.dict l) :: rs) (SendEvent.ok :: ss)
      = ((Worker.exchange handlers rs ss).1,
         TraceEv.received (Value.dict l)
           :: TraceEv.sent (Value.dict
                [("status", Value.str "failed"), ("message", Value.str formatExc)])
           :: (Worker.exchange handlers rs ss).2)
    ∧ formatExc ≠ ""
    ∧ (Worker.exchange handlers
        (RecvEvent.msg (Value.dict l)
          :: RecvEvent.msg (Value.dict
               [("action", Value.str "report_completed"), ("status", Value.str "ok")]) :: [])
        (SendEvent.ok :: ss)).1 = Outcome.ok := by
  have hd : Worker.dispatch handlers a (delKey l "action")
      = Value.dict [("status", Value.str "failed"), ("message", Value.str formatExc)] := by
    rcases hFail with hN | ⟨h, hH, hV⟩
    · simp [Worker.dispatch, hN]
    · simp [Worker.dispatch, hH, hV]
  refine ⟨?_, by simp [formatExc], ?_⟩
  · simp [Worker.exchange, Worker.recvStep, Worker.sendStep,
          Value.getItem, hA, hNC, hd]
  · simp [Worker.exchange, Worker.recvStep, Worker.sendStep,
          Value.getItem, Value.isStr_str, dlookup, hA, hNC, hd]

/-- Witness for C3: empty handler table, action `"log"`, then a success
completion report; the run still completes. -/
theorem exchange_failed_dispatch_failed_reply_witness :
    (Worker.exchange (fun _ => none)
      [RecvEvent.msg (Value.dict [("action", Value.str "log")])] [SendEvent.ok]
      = ((Worker.exchange (fun _ => none) [] []).1,
         TraceEv.received (Value.dict [("action", Value.str "log")])
           :: TraceEv.sent (Value.dict
                [("status", Value.str "failed"), ("message", Value.str formatExc)])
           :: (Worker.exchange (fun _ => none) [] []).2)
    ∧ formatExc ≠ ""
    ∧ (Worker.exchange (fun _ => none)
        (RecvEvent.msg (Value.dict [("action", Value.str "log")])
          :: RecvEvent.msg (Value.dict
               [("action", Value.str "report_completed"), ("status", Value.str "ok")]) :: [])
        [SendEvent.ok]).1 = Outcome.ok) :=
  exchange_failed_dispatch_failed_reply (fun _ => none) [] []
    [("action", Value.str "log")] (Value.str "log") rfl rfl (Or.inl rfl)

/-- Every trace of the action-exchange loop is a strict alternation of
action receives and reply sends. -/
theorem exchange_replyAlternation (handlers : Handlers) (recvs : List RecvEvent) :
    ∀ sends : List SendEvent,
      replyAlternation (Worker.exchange handlers recvs sends).2 = true := by
  induction recvs with
  | nil => intro sends; rfl
  | cons re rs ih =>
    intro sends
    cases re with
    | timeout => rfl
    | eof => rfl
    | invalid => rfl
    | msg v =>
      cases hA : v.getItem "action" with
      | error e =>
        simp [Worker.exchange, Worker.recvStep, hA, replyAlternation]
      | ok a =>
        by_cases hc : a.isStr "report_completed"
        · cases hS : v.getItem "status" with
          | error e =>
            simp [Worker.exchange, Worker.recvStep, hA, hS, hc, replyAlternation]
          | ok st =>
            by_cases hOk : st.isStr "ok"
            · simp [Worker.exchange, Worker.recvStep, hA, hS, hc, hOk, replyAlternation]
            · cases hM : v.getItem "message" with
              | error e =>
                simp [Worker.exchange, Worker.recvStep, hA, hS, hM, hc, hOk, replyAlternation]
              | ok m =>
                simp [Worker.exchange, Worker.recvStep, hA, hS, hM, hc, hOk, replyAlternation]
        · cases sends with
          | nil =>
            simp [Worker.exchange, Worker.recvStep, hA, hc, replyAlternation]
          | cons se ss =>
            cases se with
            | ok =>
              simp [Worker.exchange, Worker.recvStep, Worker.sendStep, hA, hc,
                    replyAlternation, ih ss]
            | writeFault =>
              simp [Worker.exchange, Worker.recvStep, Worker.sendStep, hA, hc, replyAlternation]
            | drainTimeout =>
              simp [Worker.exchange, Worker.recvStep, Worker.sendStep, hA, hc, replyAlternation]
            | drainFault =>
              simp [Worker.exchange, Worker.recvStep, Worker.sendStep, hA, hc, replyAlternation]

/-- C5: during one run, `Worker.run` sends exactly one Action Reply per
Action Message, in the order received: its completed-I/O trace is the
run-request send, the ack receive, then a strict receive/reply-send
alternation — a second receive never precedes the completed send of the
prior Action Reply, and a receive without a following send only occurs
as the terminal event (Done/Failed). -/
theorem run_trace_request_reply_alternation
    (handlers : Handlers) (runParams : Value)
    (sends : List SendEvent) (recvs : List RecvEvent) :
    runTraceShape (Worker.run handlers runParams sends recvs).2 = true := by
  cases sends with
  | nil => rfl
  | cons se ss =>
    cases se with
    | writeFault => rfl
    | drainTimeout => rfl
    | drainFault => rfl
    | ok =>
      cases recvs with
      | nil => rfl
      | cons re rs =>
        cases re with
        | timeout => rfl
        | eof => rfl
        | invalid => rfl
        | msg v =>
          by_cases hv : v.isStr "ack"
          · simp [Worker.run, Worker.recvStep, Worker.sendStep, hv, runTraceShape,
                  exchange_replyAlternation handlers rs ss]
          · simp [Worker.run, Worker.recvStep, Worker.sendStep, hv, runTraceShape,
                  replyAlternation]

/-- C6: for every receive in the action-exchange loop, a timeout (no
complete record within the caller-supplied result timeout) makes
`Worker.run` fail with `WorkerFailed` carrying a timeout indication —
stated for the loop entered at any iteration, and for a full run whose
first loop receive times out. -/
theorem exchange_recv_timeout_workerFailed
    (handlers : Handlers) (rs : List RecvEvent) (sends : List SendEvent)
    (runParams : Value) (ss : List SendEvent) :
    Worker.exchange handlers (RecvEvent.timeout :: rs) sends
      = (Outcome.error (PyError.workerFailed "Timeout receiving data from worker"), [])
    ∧ (Worker.run handlers runParams (SendEvent.ok :: ss)
        (RecvEvent.msg (Value.str "ack") :: RecvEvent.timeout :: rs)).1
      = Outcome.error (PyError.workerFailed "Timeout receiving data from worker") := by
  constructor
  · rfl
  · simp [Worker.run, Worker.recvStep, Worker.sendStep, Value.isStr, Worker.exchange]

/-- C7 as stated is false: a record that deserializes to a value that is
not a mapping with an `"action"` key (here the number `5`) makes
`Worker.run` terminate with an uncaught `TypeError`, which is not a
`WorkerFailed`. -/
theorem run_bad_record_not_workerFailed_counterexample :
    (Worker.run (fun _ => none) (Value.dict []) [SendEvent.ok]
      [RecvEvent.msg (Value.str "ack"), RecvEvent.msg (Value.num 5)]).1
      = Outcome.error PyError.typeError
    ∧ Outcome.isWorkerFailed (Outcome.error PyError.typeError) = false := by
  exact ⟨rfl, rfl⟩

/-- C7 amended: a record received in the action-exchange loop that
deserializes successfully but is not a mapping containing an `"action"`
key aborts `Worker.run` immediately — but with the uncaught Python error
of the `obj["action"]` subscript (`TypeError` for non-mappings,
`KeyError` for mappings without the key), which is outside the
`WorkerFailed`/`RunFailed` taxonomy. -/
theorem exchange_bad_record_uncaught_subscript_error
    (handlers : Handlers) (rs : List RecvEvent) (sends : List SendEvent)
    (v : Value) (e : PyError)
    (hE : v.getItem "action" = Except.error e) :
    Worker.exchange handlers (RecvEvent.msg v :: rs) sends
      = (Outcome.error e, [TraceEv.received v])
    ∧ Outcome.isWorkerFailed (Outcome.error e) = false
    ∧ Outcome.isRunFailed (Outcome.error e) = false := by
  refine ⟨by simp [Worker.exchange, Worker.recvStep, hE], ?_, ?_⟩
  · cases v with
    | dict l =>
        simp only [Value.getItem] at hE
        cases h : dlookup l "action" with
        | none => simp [h] at hE; simp [← hE, Outcome.isWorkerFailed, PyError.isWorkerFailed]
        | some w => simp [h] at hE
    | str t => simp [Value.getItem] at hE
               simp [← hE, Outcome.isWorkerFailed, PyError.isWorkerFailed]
    | num n => simp [Value.getItem] at hE
               simp [← hE, Outcome.isWorkerFailed, PyError.isWorkerFailed]
    | pynone => simp [Value.getItem] at hE
                simp [← hE, Outcome.isWorkerFailed, PyError.isWorkerFailed]
  · cases v with
    | dict l =>
        simp only [Value.getItem] at hE
        cases h : dlookup l "action" with
        | none => simp [h] at hE; simp [← hE, Outcome.isRunFailed, PyError.isRunFailed]
        | some w => simp [h] at hE
    | str t => simp [Value.getItem] at hE
               simp [← hE, Outcome.isRunFailed, PyError.isRunFailed]
    | num n => simp [Value.getItem] at hE
               simp [← hE, Outcome.isRunFailed, PyError.isRunFailed]
    | pynone => simp [Value.getItem] at hE
                simp [← hE, Outcome.isRunFailed, PyError.isRunFailed]

/-- Witness for the amended C7: a mapping without an `"action"` key. -/
theorem exchange_bad_record_uncaught_subscript_error_witness :
    Worker.exchange (fun _ => none)
      [RecvEvent.msg (Value.dict [("foo", Value.num 1)])] []
      = (Outcome.error (PyError.keyError "action"),
         [TraceEv.received (Value.dict [("foo", Value.num 1)])])
    ∧ Outcome.isWorkerFailed (Outcome.error (PyError.keyError "action")) = false
    ∧ Outcome.isRunFailed (Outcome.error (PyError.keyError "action")) = false :=
  exchange_bad_record_uncaught_subscript_error (fun _ => none) [] []
    (Value.dict [("foo", Value.num 1)]) (PyError.keyError "action") rfl

/-- C8 as stated is false: an I/O fault raised by `stdin.write` itself
(which the source performs before entering the `try` block) propagates
as the raw I/O error, not as a `WorkerFailed`. -/
theorem send_write_fault_not_workerFailed_counterexample :
    Worker.sendStep SendEvent.writeFault = Except.error PyError.ioFault
    ∧ PyError.isWorkerFailed PyError.ioFault = false := by
  exact ⟨rfl, rfl⟩

/-- C8 amended: `Worker._send` escalates to `WorkerFailed` exactly the
faults of the awaited `drain` — a timeout becomes
`WorkerFailed("Timeout sending data from worker")` and any other drain
failure `WorkerFailed("Failed to send data to worker")` — while a fault
raised by the `stdin.write` calls themselves, which precede the
protected region, propagates as the raw I/O error. -/
theorem sendStep_fault_escalation :
    Worker.sendStep SendEvent.drainTimeout
      = Except.error (PyError.workerFailed "Timeout sending data from worker")
    ∧ Worker.sendStep SendEvent.drainFault
      = Except.error (PyError.workerFailed "Failed to send data to worker")
    ∧ Worker.sendStep SendEvent.writeFault = Except.error PyError.ioFault
    ∧ PyError.isWorkerFailed PyError.ioFault = false
    ∧ Worker.sendStep SendEvent.ok = Except.ok () := by
  exact ⟨rfl, rfl, rfl, rfl, rfl⟩

/-- C9: `end_process` on a live process that ignores graceful
termination for longer than `term_timeout` issues SIGTERM then SIGKILL,
returns without waiting after the kill, and raises nothing; on an
already-exited process it returns immediately with no signal; no case
reports an error to the caller. -/
theorem end_process_term_kill_behaviour :
    Worker.end_process ProcState.termIgnoring
      = ⟨[Sig.sigterm, Sig.sigkill], false, false⟩
    ∧ Worker.end_process ProcState.exited = ⟨[], false, false⟩
    ∧ ∀ s : ProcState, (Worker.end_process s).raised = false := by
  refine ⟨rfl, rfl, fun s => ?_⟩
  cases s <;> rfl
